import Mathlib

/-!
Shallow embedding of `example.py` (MoltyDEX x402 integration example).

The script defines `X402PaymentHandler` with the public method
`handle_402_response` and the helpers `_parse_402_response`,
`_check_balance`, `_swap_tokens`, `_create_payment_transaction` and
`_send_transaction`.  The flow is single-threaded and sequential, so
we embed it as pure functions.  All replies from external
collaborators (the MoltyDEX balance/quote/swap API, the Solana RPC,
the retried HTTP GET) are collected beforehand in an `Env` record, and
every network-visible call the code makes is recorded in a trace of
`Call` events, returned alongside the `Except` result that models
Python's normal return / raised exception.
-/

namespace X402

/-- One entry of the `accepts` list in a 402 body.  Python reads the
fields with `option.get('scheme')`, `option['token']`, `option['amount']`
and `option.get('network', 'mainnet')`, so every field is optional here;
a missing `token` or `amount` raises `KeyError` in Python and is an
explicit error in the embedding. -/
structure AcceptOption where
  scheme : Option String
  token : Option String
  amount : Option String
  network : Option String
deriving DecidableEq, Repr

/-- The dict returned by `_parse_402_response`. -/
structure PaymentInfo where
  token : String
  amount : String
  network : String
deriving DecidableEq, Repr

/-- An HTTP response as the handler observes it: the status code and
the optional `accepts` list of its JSON body (`payment_data.get('accepts')`;
`None` models a body without that key). -/
structure PyResponse where
  status_code : Nat
  accepts : Option (List AcceptOption)
deriving DecidableEq, Repr

/-- The exceptions the script can raise on the paths we model.
`noSolanaOption` is `Exception("No Solana payment option found")`,
`swapFailed` is `Exception("Failed to swap tokens")`, `keyError` a
Python `KeyError` on a missing dict key and `valueError` a failing
`int(...)` conversion. -/
inductive PyError where
  | noSolanaOption
  | keyError
  | valueError
  | swapFailed
deriving DecidableEq, Repr

/-- Network-visible calls the handler performs, in program order. -/
inductive Call where
  | balanceQuery (wallet_address token_mint : String)
  | quoteQuery (input_mint output_mint amount slippage_bps : String)
  | swapBuild (wallet_address input_mint output_mint amount slippage_bps : String)
  | swapSend
  | swapConfirm
  | paymentSend
  | retryGet (url : String) (headers : List (String × String))
deriving DecidableEq, Repr

/-- Pre-recorded replies of the external collaborators, plus the
handler's own wallet address (`self.wallet_address`).
`balance_field` is `data.get('balance')` of the balance reply, already
converted to a number (`int` of the decimal string); `None` models a
body without the key, for which the code uses the default `0`.
`output_amount_field` is `quote.get('output_amount')`;
`swap_transaction_field` is the `transaction` key of the swap-build
reply; `retried_response` is what the final `requests.get` returns. -/
structure Env where
  wallet_address : String
  balance_field : Option Nat
  output_amount_field : Option String
  swap_transaction_field : Option String
  retried_response : PyResponse
deriving DecidableEq, Repr

/-- Decimal value of one character, `none` for a non-digit. -/
def digit_value : Char → Option Nat
  | c => if 48 ≤ c.toNat ∧ c.toNat ≤ 57 then some (c.toNat - 48) else none

/-- Fold the digits of a decimal numeral. -/
def decimal_fold : List Char → Nat → Option Nat
  | [], acc => some acc
  | c :: rest, acc =>
    match digit_value c with
    | none => none
    | some d => decimal_fold rest (acc * 10 + d)

/-- Python `int(s)` restricted to the non-negative decimal numerals
that amounts in this protocol use: a non-empty string of digits parses
to its value, anything else raises `ValueError`. -/
def py_int (s : String) : Option Nat :=
  match s.data with
  | [] => none
  | l => decimal_fold l 0

/-- Python truthiness of `quote.get('output_amount')` when the value,
if present, is a string: `None` and `""` are falsy. -/
def pyTruthyOptString : Option String → Bool
  | none => false
  | some s => s ≠ ""

/-- The wrapped-SOL mint the script hard-codes as swap input. -/
def SOL_MINT : String := "So11111111111111111111111111111111111111112"

/-- The `for option in accepts:` loop of `_parse_402_response`: return
on the first entry whose `scheme` equals `"solana"`, raise
`Exception("No Solana payment option found")` if none matches. -/
def find_solana_option : List AcceptOption → Except PyError PaymentInfo
  | [] => .error .noSolanaOption
  | option :: rest =>
    if option.scheme = some "solana" then
      match option.token, option.amount with
      | some t, some a => .ok ⟨t, a, option.network.getD "mainnet"⟩
      | _, _ => .error .keyError
    else find_solana_option rest

/-- `_parse_402_response`: read `payment_data.get('accepts', [])` and
scan it for the first Solana option. -/
def _parse_402_response (response : PyResponse) : Except PyError PaymentInfo :=
  find_solana_option (response.accepts.getD [])

/-- `_check_balance`: one GET to the balance endpoint, then
`int(data.get('balance', 0))`. -/
def _check_balance (env : Env) (token_address : String) : Nat × List Call :=
  (env.balance_field.getD 0, [Call.balanceQuery env.wallet_address token_address])

/-- `_swap_tokens`: GET a quote for `str(amount)` at 50 bps slippage;
return `False` if the quote has no truthy `output_amount`; otherwise
POST the swap build, read its `transaction` key (KeyError if absent),
sign, send to Solana and wait for confirmation, then return `True`. -/
def _swap_tokens (env : Env) (input_token output_token : String) (amount : Nat) :
    Except PyError Bool × List Call :=
  let quoteCall := Call.quoteQuery input_token output_token (toString amount) "50"
  if pyTruthyOptString env.output_amount_field then
    let buildCall :=
      Call.swapBuild env.wallet_address input_token output_token (toString amount) "50"
    match env.swap_transaction_field with
    | none => (.error .keyError, [quoteCall, buildCall])
    | some _ => (.ok true, [quoteCall, buildCall, Call.swapSend, Call.swapConfirm])
  else
    (.ok false, [quoteCall])

/-- `_create_payment_transaction`: a stub (`pass`), returns `None`. -/
def _create_payment_transaction (_payment_info : PaymentInfo) : Unit := ()

/-- `_send_transaction`: a stub, always returns the literal string. -/
def _send_transaction : String := "transaction_signature"

/-- The headers dict attached to the retried request, in source order. -/
def payment_headers (payment_signature : String) (payment_info : PaymentInfo) :
    List (String × String) :=
  [("X-Payment", payment_signature),
   ("X-Payment-Amount", payment_info.amount),
   ("X-Payment-Token", payment_info.token)]

/-- The tail of `handle_402_response` after the optional swap: build
the payment transaction, send it, and retry the original request with
the payment headers. -/
def finish_payment (env : Env) (payment_info : PaymentInfo) (original_request_url : String) :
    Except PyError PyResponse × List Call :=
  let payment_signature := _send_transaction
  let headers := payment_headers payment_signature payment_info
  (.ok env.retried_response, [Call.paymentSend, Call.retryGet original_request_url headers])

/-- `handle_402_response`: pass a non-402 response through unchanged;
otherwise parse the requirement, check the balance, convert the amount
with `int(...)`, swap if the balance is short (raising
`Exception("Failed to swap tokens")` when `_swap_tokens` returns
`False`), then pay and retry. -/
def handle_402_response (env : Env) (response : PyResponse) (original_request_url : String) :
    Except PyError PyResponse × List Call :=
  if response.status_code ≠ 402 then (.ok response, [])
  else
    match _parse_402_response response with
    | .error e => (.error e, [])
    | .ok payment_info =>
      let checked := _check_balance env payment_info.token
      let balance := checked.1
      let bcalls := checked.2
      match py_int payment_info.amount with
      | none => (.error .valueError, bcalls)
      | some required_amount =>
        if balance < required_amount then
          match _swap_tokens env SOL_MINT payment_info.token required_amount with
          | (.error e, scalls) => (.error e, bcalls ++ scalls)
          | (.ok false, scalls) => (.error .swapFailed, bcalls ++ scalls)
          | (.ok true, scalls) =>
            let fin := finish_payment env payment_info original_request_url
            (fin.1, bcalls ++ scalls ++ fin.2)
        else
          let fin := finish_payment env payment_info original_request_url
          (fin.1, bcalls ++ fin.2)

/-- Recognize a quote request in the trace. -/
def isQuoteCall : Call → Bool
  | Call.quoteQuery _ _ _ _ => true
  | _ => false

/-- Recognize a swap-build request in the trace. -/
def isSwapBuildCall : Call → Bool
  | Call.swapBuild _ _ _ _ _ => true
  | _ => false

/-- Recognize a swap submission in the trace. -/
def isSwapSendCall : Call → Bool
  | Call.swapSend => true
  | _ => false

/-- Recognize a payment submission in the trace. -/
def isPaymentSendCall : Call → Bool
  | Call.paymentSend => true
  | _ => false

end X402

namespace X402

/-- The scan of `_parse_402_response` raises when no entry of the
`accepts` list has scheme `"solana"`. -/
theorem find_solana_none (l : List AcceptOption)
    (h : ∀ o ∈ l, o.scheme ≠ some "solana") :
    find_solana_option l = .error .noSolanaOption := by
  induction l with
  | nil => rfl
  | cons o rest ih =>
    unfold find_solana_option
    rw [if_neg (h o (List.mem_cons_self o rest))]
    exact ih (fun x hx => h x (List.mem_cons_of_mem o hx))

/-- The scan of `_parse_402_response` returns the first entry whose
scheme is `"solana"`, whatever follows it. -/
theorem find_solana_first (l1 l2 : List AcceptOption) (o : AcceptOption) (t a : String)
    (h1 : ∀ x ∈ l1, x.scheme ≠ some "solana") (ho : o.scheme = some "solana")
    (ht : o.token = some t) (ha : o.amount = some a) :
    find_solana_option (l1 ++ o :: l2) = .ok ⟨t, a, o.network.getD "mainnet"⟩ := by
  induction l1 with
  | nil =>
    rw [List.nil_append]
    unfold find_solana_option
    rw [if_pos ho, ht, ha]
  | cons x rest ih =>
    rw [List.cons_append]
    unfold find_solana_option
    rw [if_neg (h1 x (List.mem_cons_self x rest))]
    exact ih (fun y hy => h1 y (List.mem_cons_of_mem x hy))

/-- On the insufficient-balance path the trace holds exactly one quote
request, and its amount parameter is the full required amount. -/
theorem handle_insufficient_quote_calls (env : Env) (r : PyResponse) (url : String)
    (pi : PaymentInfo) (n : Nat)
    (h402 : r.status_code = 402)
    (hparse : _parse_402_response r = .ok pi)
    (hn : py_int pi.amount = some n)
    (hbal : env.balance_field.getD 0 < n) :
    (handle_402_response env r url).2.filter isQuoteCall
      = [Call.quoteQuery SOL_MINT pi.token (toString n) "50"] := by
  unfold handle_402_response
  rw [hparse]
  simp only [h402, ne_eq, not_true_eq_false, if_false, _check_balance]
  rw [hn]
  simp only [if_pos hbal]
  unfold _swap_tokens
  cases htr : pyTruthyOptString env.output_amount_field with
  | false =>
    simp [List.filter, isQuoteCall]
  | true =>
    cases hsw : env.swap_transaction_field with
    | none => simp [List.filter, isQuoteCall]
    | some tx => simp [List.filter, isQuoteCall, finish_payment, payment_headers]

/-- C1 (amended): on every 402 response with a supported payment entry
and a balance strictly below the required amount, the handler issues
exactly one quote request, and its amount parameter is the FULL
required amount, not the shortfall. -/
theorem C1_quote_carries_full_required_amount (env : Env) (r : PyResponse) (url : String)
    (pi : PaymentInfo) (n : Nat)
    (h402 : r.status_code = 402)
    (hparse : _parse_402_response r = .ok pi)
    (hn : py_int pi.amount = some n)
    (hbal : env.balance_field.getD 0 < n) :
    (handle_402_response env r url).2.filter isQuoteCall
      = [Call.quoteQuery SOL_MINT pi.token (toString n) "50"] :=
  handle_insufficient_quote_calls env r url pi n h402 hparse hn hbal

def c1_response : PyResponse :=
  ⟨402, some [⟨some "solana", some "TOKEN_MINT", some "1000000", none⟩]⟩

def c1_env : Env :=
  ⟨"WALLET", some 500000, some "990000", some "dHg=", ⟨200, none⟩⟩

/-- C1 (counterexample): with required amount 1000000 and balance
500000, the unique quote call carries amount "1000000" — the full
required amount — and not the shortfall "500000" the claim demands. -/
theorem C1_counterexample :
    (handle_402_response c1_env c1_response "https://example-api.com/data").2.filter isQuoteCall
      = [Call.quoteQuery SOL_MINT "TOKEN_MINT" "1000000" "50"]
    ∧ ("1000000" : String) ≠ "500000" :=
  ⟨rfl, by decide⟩

def c1w_response : PyResponse :=
  ⟨402, some [⟨some "solana", some "TOK", some "1000000", none⟩]⟩

def c1w_env : Env :=
  ⟨"W", some 500000, some "990000", some "dHg=", ⟨200, none⟩⟩

/-- C1 witness: the amended theorem applied at a concrete input. -/
theorem C1_witness :
    (handle_402_response c1w_env c1w_response "u").2.filter isQuoteCall
      = [Call.quoteQuery SOL_MINT "TOK" (toString 1000000) "50"] :=
  C1_quote_carries_full_required_amount c1w_env c1w_response "u"
    ⟨"TOK", "1000000", "mainnet"⟩ 1000000 rfl rfl rfl (by decide)

end X402

namespace X402

/-- C2: for every response whose status is not 402, the handler
returns that response unchanged and its trace of network calls is
empty. -/
theorem C2_non_402_passthrough (env : Env) (r : PyResponse) (url : String)
    (h : r.status_code ≠ 402) :
    handle_402_response env r url = (.ok r, []) := by
  unfold handle_402_response
  rw [if_pos h]

def c2_env : Env := ⟨"W", some 7, some "9", some "dHg=", ⟨200, none⟩⟩

def c2_response : PyResponse :=
  ⟨200, some [⟨some "solana", some "TOK", some "1000000", none⟩]⟩

/-- C2 witness: a 200 response passes through with no calls. -/
theorem C2_witness :
    handle_402_response c2_env c2_response "u" = (.ok c2_response, []) :=
  C2_non_402_passthrough c2_env c2_response "u" (by decide)

/-- C3: a 402 response whose accepts list has no entry with scheme
"solana" makes the handler fail with the no-Solana-option error, with
an empty trace: no balance query, no exchange call, no payment. -/
theorem C3_unsupported_scheme (env : Env) (r : PyResponse) (url : String)
    (h402 : r.status_code = 402)
    (hns : ∀ o ∈ r.accepts.getD [], o.scheme ≠ some "solana") :
    handle_402_response env r url = (.error .noSolanaOption, []) := by
  have hp : _parse_402_response r = .error .noSolanaOption :=
    find_solana_none _ hns
  unfold handle_402_response
  rw [hp]
  simp [h402]

def c3_env : Env := ⟨"W", some 7, some "9", some "dHg=", ⟨200, none⟩⟩

def c3_response : PyResponse :=
  ⟨402, some [⟨some "ethereum", some "TOK", some "1000000", none⟩,
              ⟨none, some "TOK2", some "5", none⟩]⟩

/-- C3 witness: a 402 offering only an ethereum scheme fails with no
calls. -/
theorem C3_witness :
    handle_402_response c3_env c3_response "u" = (.error .noSolanaOption, []) :=
  C3_unsupported_scheme c3_env c3_response "u" rfl (by decide)

/-- C4: on a 402 response with a supported entry and a balance at
least the required amount, the trace is exactly a balance query, the
payment submission and the retried GET: no quote, no swap build, no
swap submission. -/
theorem C4_sufficient_balance_skips_swap (env : Env) (r : PyResponse) (url : String)
    (pi : PaymentInfo) (n : Nat)
    (h402 : r.status_code = 402)
    (hparse : _parse_402_response r = .ok pi)
    (hn : py_int pi.amount = some n)
    (hbal : n ≤ env.balance_field.getD 0) :
    handle_402_response env r url
      = (.ok env.retried_response,
         [Call.balanceQuery env.wallet_address pi.token, Call.paymentSend,
          Call.retryGet url (payment_headers _send_transaction pi)]) := by
  unfold handle_402_response
  rw [hparse]
  simp only [h402, ne_eq, not_true_eq_false, if_false, _check_balance]
  rw [hn]
  simp only [if_neg (Nat.not_lt.mpr hbal)]
  simp [finish_payment]

def c4_env : Env := ⟨"W", some 2000000, some "9", some "dHg=", ⟨200, none⟩⟩

def c4_response : PyResponse :=
  ⟨402, some [⟨some "solana", some "TOK", some "1000000", none⟩]⟩

/-- C4 witness: with balance 2000000 against requirement 1000000 the
trace is balance query, payment, retry. -/
theorem C4_witness :
    handle_402_response c4_env c4_response "u"
      = (.ok c4_env.retried_response,
         [Call.balanceQuery c4_env.wallet_address "TOK", Call.paymentSend,
          Call.retryGet "u" (payment_headers _send_transaction ⟨"TOK", "1000000", "mainnet"⟩)]) :=
  C4_sufficient_balance_skips_swap c4_env c4_response "u"
    ⟨"TOK", "1000000", "mainnet"⟩ 1000000 rfl rfl rfl (by decide)

/-- C6: when the quote reply carries no truthy output amount on the
insufficient-balance path, the handler raises the swap-failed error
and the trace ends at the quote: no swap build and no swap
submission. -/
theorem C6_no_output_amount_aborts (env : Env) (r : PyResponse) (url : String)
    (pi : PaymentInfo) (n : Nat)
    (h402 : r.status_code = 402)
    (hparse : _parse_402_response r = .ok pi)
    (hn : py_int pi.amount = some n)
    (hbal : env.balance_field.getD 0 < n)
    (hquote : pyTruthyOptString env.output_amount_field = false) :
    handle_402_response env r url
      = (.error .swapFailed,
         [Call.balanceQuery env.wallet_address pi.token,
          Call.quoteQuery SOL_MINT pi.token (toString n) "50"]) := by
  unfold handle_402_response
  rw [hparse]
  simp only [h402, ne_eq, not_true_eq_false, if_false, _check_balance]
  rw [hn]
  simp only [if_pos hbal]
  unfold _swap_tokens
  rw [hquote]
  simp

def c6_env : Env := ⟨"W", some 0, none, some "dHg=", ⟨200, none⟩⟩

def c6_response : PyResponse :=
  ⟨402, some [⟨some "solana", some "TOK", some "1000000", none⟩]⟩

/-- C6 witness: a quote reply without output amount stops the flow
after the quote call. -/
theorem C6_witness :
    handle_402_response c6_env c6_response "u"
      = (.error .swapFailed,
         [Call.balanceQuery c6_env.wallet_address "TOK",
          Call.quoteQuery SOL_MINT "TOK" (toString 1000000) "50"]) :=
  C6_no_output_amount_aborts c6_env c6_response "u"
    ⟨"TOK", "1000000", "mainnet"⟩ 1000000 rfl rfl rfl (by decide) rfl

end X402

namespace X402

/-- C5: whenever the handler succeeds on a 402 response (so the retry
step is reached), the trace ends with a retried GET of the original
URL whose headers are exactly X-Payment (the settlement reference
returned by payment submission), X-Payment-Amount and X-Payment-Token
(the parsed requirement's strings, verbatim). -/
theorem C5_retry_headers (env : Env) (r : PyResponse) (url : String) (pi : PaymentInfo)
    (resp : PyResponse) (tr : List Call)
    (h402 : r.status_code = 402)
    (hparse : _parse_402_response r = .ok pi)
    (hrun : handle_402_response env r url = (.ok resp, tr)) :
    ∃ pre, tr = pre ++ [Call.retryGet url
        [("X-Payment", _send_transaction),
         ("X-Payment-Amount", pi.amount),
         ("X-Payment-Token", pi.token)]] := by
  unfold handle_402_response at hrun
  rw [hparse] at hrun
  simp only [h402, ne_eq, not_true_eq_false, if_false, _check_balance] at hrun
  cases hn : py_int pi.amount with
  | none => rw [hn] at hrun; simp at hrun
  | some n =>
    rw [hn] at hrun
    by_cases hb : env.balance_field.getD 0 < n
    · simp only [if_pos hb] at hrun
      unfold _swap_tokens at hrun
      cases htr : pyTruthyOptString env.output_amount_field with
      | false => rw [htr] at hrun; simp at hrun
      | true =>
        rw [htr] at hrun
        cases hsw : env.swap_transaction_field with
        | none => rw [hsw] at hrun; simp at hrun
        | some tx =>
          rw [hsw] at hrun
          simp only [finish_payment, payment_headers, if_true, Prod.mk.injEq] at hrun
          obtain ⟨h1, h2⟩ := hrun
          subst h2
          exact ⟨[Call.balanceQuery env.wallet_address pi.token,
                  Call.quoteQuery SOL_MINT pi.token (toString n) "50",
                  Call.swapBuild env.wallet_address SOL_MINT pi.token (toString n) "50",
                  Call.swapSend, Call.swapConfirm, Call.paymentSend], by simp⟩
    · simp only [if_neg hb] at hrun
      simp only [finish_payment, payment_headers, Prod.mk.injEq] at hrun
      obtain ⟨h1, h2⟩ := hrun
      subst h2
      exact ⟨[Call.balanceQuery env.wallet_address pi.token, Call.paymentSend], by simp⟩

def c5_env : Env := ⟨"W", some 2000000, some "9", some "dHg=", ⟨200, none⟩⟩

def c5_response : PyResponse :=
  ⟨402, some [⟨some "solana", some "TOK", some "1000000", none⟩]⟩

def c5_trace : List Call :=
  [Call.balanceQuery "W" "TOK", Call.paymentSend,
   Call.retryGet "u" [("X-Payment", _send_transaction),
                      ("X-Payment-Amount", "1000000"),
                      ("X-Payment-Token", "TOK")]]

/-- C5 witness: a successful concrete run ends with the retried GET
carrying the three headers. -/
theorem C5_witness :
    ∃ pre, c5_trace = pre ++ [Call.retryGet "u"
        [("X-Payment", _send_transaction),
         ("X-Payment-Amount", "1000000"),
         ("X-Payment-Token", "TOK")]] :=
  C5_retry_headers c5_env c5_response "u" ⟨"TOK", "1000000", "mainnet"⟩
    c5_env.retried_response c5_trace rfl rfl rfl

/-- C7: parsing a 402 body selects the first accepts entry whose
scheme is "solana" and returns its token and amount; entries after it,
matching or not, do not change the result. -/
theorem C7_first_match (resp : PyResponse) (l1 l2 : List AcceptOption) (o : AcceptOption)
    (t a : String)
    (hacc : resp.accepts = some (l1 ++ o :: l2))
    (h1 : ∀ x ∈ l1, x.scheme ≠ some "solana")
    (ho : o.scheme = some "solana")
    (ht : o.token = some t) (ha : o.amount = some a) :
    _parse_402_response resp = .ok ⟨t, a, o.network.getD "mainnet"⟩ := by
  unfold _parse_402_response
  rw [hacc, Option.getD_some]
  exact find_solana_first l1 l2 o t a h1 ho ht ha

def c7_l1 : List AcceptOption := [⟨some "ethereum", some "E", some "1", none⟩]

def c7_o : AcceptOption := ⟨some "solana", some "TOK", some "1000000", none⟩

def c7_l2 : List AcceptOption := [⟨some "solana", some "LATER", some "5", some "devnet"⟩]

def c7_response : PyResponse := ⟨402, some (c7_l1 ++ c7_o :: c7_l2)⟩

/-- C7 witness: the first solana entry wins over a later solana
entry. -/
theorem C7_witness :
    _parse_402_response c7_response = .ok ⟨"TOK", "1000000", c7_o.network.getD "mainnet"⟩ :=
  C7_first_match c7_response c7_l1 c7_l2 c7_o "TOK" "1000000" rfl (by decide) rfl rfl rfl

/-- C8: every successful call of the handler on a 402 response records
at most one swap submission and exactly one payment submission in its
trace. -/
theorem C8_single_submissions (env : Env) (r : PyResponse) (url : String)
    (resp : PyResponse) (tr : List Call)
    (h402 : r.status_code = 402)
    (hrun : handle_402_response env r url = (.ok resp, tr)) :
    tr.countP isSwapSendCall ≤ 1 ∧ tr.countP isPaymentSendCall = 1 := by
  unfold handle_402_response at hrun
  cases hp : _parse_402_response r with
  | error e =>
    rw [hp] at hrun
    simp only [h402, ne_eq, not_true_eq_false, if_false] at hrun
    simp at hrun
  | ok pi =>
    rw [hp] at hrun
    simp only [h402, ne_eq, not_true_eq_false, if_false, _check_balance] at hrun
    cases hn : py_int pi.amount with
    | none => rw [hn] at hrun; simp at hrun
    | some n =>
      rw [hn] at hrun
      by_cases hb : env.balance_field.getD 0 < n
      · simp only [if_pos hb] at hrun
        unfold _swap_tokens at hrun
        cases htr : pyTruthyOptString env.output_amount_field with
        | false => rw [htr] at hrun; simp at hrun
        | true =>
          rw [htr] at hrun
          cases hsw : env.swap_transaction_field with
          | none => rw [hsw] at hrun; simp at hrun
          | some tx =>
            rw [hsw] at hrun
            simp only [finish_payment, payment_headers, if_true, Prod.mk.injEq] at hrun
            obtain ⟨h1, h2⟩ := hrun
            subst h2
            simp [List.countP_cons, isSwapSendCall, isPaymentSendCall]
      · simp only [if_neg hb] at hrun
        simp only [finish_payment, payment_headers, Prod.mk.injEq] at hrun
        obtain ⟨h1, h2⟩ := hrun
        subst h2
        simp [List.countP_cons, isSwapSendCall, isPaymentSendCall]

def c8_env : Env := ⟨"W", some 0, some "9", some "dHg=", ⟨200, none⟩⟩

def c8_response : PyResponse :=
  ⟨402, some [⟨some "solana", some "TOK", some "1000000", none⟩]⟩

def c8_trace : List Call :=
  [Call.balanceQuery "W" "TOK",
   Call.quoteQuery SOL_MINT "TOK" "1000000" "50",
   Call.swapBuild "W" SOL_MINT "TOK" "1000000" "50",
   Call.swapSend, Call.swapConfirm, Call.paymentSend,
   Call.retryGet "u" [("X-Payment", _send_transaction),
                      ("X-Payment-Amount", "1000000"),
                      ("X-Payment-Token", "TOK")]]

/-- C8 witness: a successful swap-path run has one swap submission and
one payment submission. -/
theorem C8_witness :
    c8_trace.countP isSwapSendCall ≤ 1 ∧ c8_trace.countP isPaymentSendCall = 1 :=
  C8_single_submissions c8_env c8_response "u" c8_env.retried_response c8_trace rfl rfl

/-- C9: for the selected solana entry, a missing network field parses
to the default "mainnet", and a present network field is used
unchanged. -/
theorem C9_network_default (resp : PyResponse) (l1 l2 : List AcceptOption) (o : AcceptOption)
    (t a : String)
    (hacc : resp.accepts = some (l1 ++ o :: l2))
    (h1 : ∀ x ∈ l1, x.scheme ≠ some "solana")
    (ho : o.scheme = some "solana")
    (ht : o.token = some t) (ha : o.amount = some a) :
    (o.network = none → _parse_402_response resp = .ok ⟨t, a, "mainnet"⟩)
    ∧ ∀ v, o.network = some v → _parse_402_response resp = .ok ⟨t, a, v⟩ := by
  have base : _parse_402_response resp = .ok ⟨t, a, o.network.getD "mainnet"⟩ := by
    unfold _parse_402_response
    rw [hacc, Option.getD_some]
    exact find_solana_first l1 l2 o t a h1 ho ht ha
  constructor
  · intro hnet
    rw [hnet] at base
    simpa using base
  · intro v hnet
    rw [hnet] at base
    simpa using base

def c9_o : AcceptOption := ⟨some "solana", some "TOK", some "5", none⟩

def c9_response : PyResponse := ⟨402, some [c9_o]⟩

/-- C9 witness: an entry without a network field parses to
"mainnet". -/
theorem C9_witness :
    (c9_o.network = none → _parse_402_response c9_response = .ok ⟨"TOK", "5", "mainnet"⟩)
    ∧ ∀ v, c9_o.network = some v → _parse_402_response c9_response = .ok ⟨"TOK", "5", v⟩ :=
  C9_network_default c9_response [] [] c9_o "TOK" "5" rfl (by decide) rfl rfl rfl

/-- C10: a balance reply without a balance field makes the balance
check return 0, so on a 402 with a positive required amount the
handler takes the exchange branch and issues a quote request. -/
theorem C10_missing_balance_field (env : Env) (r : PyResponse) (url : String)
    (pi : PaymentInfo) (n : Nat)
    (h402 : r.status_code = 402)
    (hparse : _parse_402_response r = .ok pi)
    (hn : py_int pi.amount = some n)
    (hpos : 0 < n)
    (hbal : env.balance_field = none) :
    (_check_balance env pi.token).1 = 0 ∧
    (handle_402_response env r url).2.filter isQuoteCall
      = [Call.quoteQuery SOL_MINT pi.token (toString n) "50"] := by
  constructor
  · simp [_check_balance, hbal]
  · exact handle_insufficient_quote_calls env r url pi n h402 hparse hn
      (by rw [hbal]; simpa using hpos)

def c10_env : Env := ⟨"W", none, some "9", some "dHg=", ⟨200, none⟩⟩

def c10_response : PyResponse :=
  ⟨402, some [⟨some "solana", some "TOK", some "1000000", none⟩]⟩

/-- C10 witness: with the balance field absent the check yields 0 and
the run contains one quote call. -/
theorem C10_witness :
    (_check_balance c10_env "TOK").1 = 0 ∧
    (handle_402_response c10_env c10_response "u").2.filter isQuoteCall
      = [Call.quoteQuery SOL_MINT "TOK" (toString 1000000) "50"] :=
  C10_missing_balance_field c10_env c10_response "u" ⟨"TOK", "1000000", "mainnet"⟩
    1000000 rfl rfl rfl (by decide) rfl

end X402
